import Mathlib

/-!
# Verification of the whisper-input-mac press-to-talk pipeline

Shallow embedding of the core components of the repository
(`src/whisper_input_mac/`): the press-hold detector, the permissions
coordinator, the audio capture service, the text injector and the
transcription orchestrator.  External collaborators (the OS permission
prompts, the audio engine, the pasteboard, the CGEvent primitives, the
transcription model) are abstracted as oracle parameters describing the
outcome of each external call; everything the repository's own code does
with those outcomes is translated faithfully, branch by branch.

Machine-specific aspects that the claims do not touch (logging, the
debounced icon UI, asyncio scheduling internals) are not modelled; where a
code path only logs and returns, the model returns the unchanged state.
-/

namespace WhisperInput

/-! ## Auto-punctuation (`TranscriptionOrchestrator._apply_auto_punctuation`)

`_apply_auto_punctuation` reads the `AUTO_PUNCTUATION` preference when a
preferences store is configured.  The read has four observable outcomes:
no store configured (the check is skipped and the rules apply), the read
raised (text returned unchanged), the preference is falsy (unchanged), or
truthy (rules apply). -/

/-- Outcome of reading the auto-punctuation preference in
`_apply_auto_punctuation`. -/
inductive PrefRead where
  | noStore : PrefRead
  | failed : PrefRead
  | value : Bool → PrefRead
deriving DecidableEq, Repr

/-- Python `str.strip()` whitespace set, restricted to the ASCII
whitespace characters (`' '`, `\t`, `\n`, `\r`, `\x0b`, `\x0c`); the
inputs exercised here are ASCII. -/
def isPySpace (c : Char) : Bool :=
  c = ' ' || c = '\t' || c = '\n' || c = '\r' || c = '\x0b' || c = '\x0c'

/-- Python `str.strip()` on a list of characters: drop whitespace from
both ends. -/
def pyStripList (l : List Char) : List Char :=
  ((l.dropWhile isPySpace).reverse.dropWhile isPySpace).reverse

/-- Python `str.strip()`. -/
def pyStrip (s : String) : String :=
  String.mk (pyStripList s.data)

/-- Python `processed[0].upper() + processed[1:]` (one-character
`str.upper`, adequate for ASCII via `Char.toUpper`). -/
def capFirst (s : String) : String :=
  match s.data with
  | [] => ""
  | c :: rest => String.mk (c.toUpper :: rest)

/-- Python `processed[-1] in '.!?'`. -/
def endsInTerminal (s : String) : Bool :=
  match s.data.getLast? with
  | some c => c = '.' || c = '!' || c = '?'
  | none => false

/-- Model of `TranscriptionOrchestrator._apply_auto_punctuation` (orchestrator.py
lines 370-405): return empty text unchanged; consult the preference;
strip, capitalize the first character, and append `'.'` when the last
character is not one of `.!?`. -/
def applyAutoPunctuation (pr : PrefRead) (text : String) : String :=
  if text = "" then text
  else
    match pr with
    | .failed => text
    | .value false => text
    | .noStore | .value true =>
      let processed := pyStrip text
      let processed := if processed ≠ "" then capFirst processed else processed
      let processed :=
        if processed ≠ "" && !endsInTerminal processed then processed ++ "." else processed
      processed

/-- The literal reading of the C9 spec sentence: capitalize the first
character of the text and append a terminal mark exactly when the text
does not already end in one.  (Spec-side definition, used only to compare
against `applyAutoPunctuation`.) -/
def autoPunctClaimed (s : String) : String :=
  capFirst s ++ (if endsInTerminal s then "" else ".")

/-- The amended description of the step: trim whitespace first; an input
that trims to empty yields the empty string; otherwise capitalize the
first character of the trimmed text and append `'.'` exactly when it does
not end in `.`, `!` or `?`.  (Spec-side definition for the amended C9.) -/
def autoPunctAmended (s : String) : String :=
  let t := pyStrip s
  if t = "" then ""
  else
    let t := capFirst t
    if endsInTerminal t then t else t ++ "."

/-! ## Text injection (`text_injector.py`) -/

/-- Exceptions observable by `TextInjector.send_text` from the direct
strategy: the specific `TextInjectionError` (caught, triggers the
clipboard fallback) versus any unrelated exception (propagates). -/
inductive InjErr where
  | textInjection : String → InjErr
  | other : String → InjErr
deriving DecidableEq, Repr

/-- Outcomes of the external calls made by `ClipboardFallback.paste_text`:
whether `setString_forType_` succeeds, whether the process is trusted for
accessibility, and whether posting the Cmd+V events succeeds. -/
structure ClipEnv where
  writeOk : Bool
  trusted : Bool
  cmdVOk : Bool
deriving DecidableEq, Repr

/-- Model of `ClipboardFallback.paste_text` (text_injector.py lines 136-232),
returning the Python result together with the final pasteboard contents.
`clip` is the pasteboard state before the call; `restore` is the
`restore_clipboard` flag.  Empty text returns `False` untouched; the
previous contents are saved only when `restore` is set; `clearContents`
followed by a failed `setString_forType_` leaves the pasteboard empty and
returns `False`; without accessibility trust the call returns `True` with
the injected text left on the pasteboard (partial success); a failure
posting Cmd+V likewise returns `True` without restoring; otherwise the
previous contents are restored when `restore` is set and they existed. -/
def pasteText (restore : Bool) (env : ClipEnv) (clip : Option String) (text : String) :
    Bool × Option String :=
  if text = "" then (false, clip)
  else
    let previousClipboard := if restore then clip else none
    if !env.writeOk then (false, none)
    else
      if !env.trusted then (true, some text)
      else if !env.cmdVOk then (true, some text)
      else
        match previousClipboard with
        | some prev => if restore then (true, some prev) else (true, some text)
        | none => (true, some text)

/-- Model of `TextInjector.send_text` (text_injector.py lines 248-289), returning
`Except` for a propagated non-`TextInjectionError` exception, and
otherwise the `(success, error_message)` pair together with the final
pasteboard contents.  `direct` is the outcome of
`KeyboardInjector.send_unicode`; the clipboard strategy is the `pasteText`
model above. -/
def sendText (direct : Except InjErr Unit) (restore : Bool) (cenv : ClipEnv)
    (clip : Option String) (text : String) (preferClipboard : Bool) :
    Except String ((Bool × Option String) × Option String) :=
  if text = "" then .ok ((false, some "Cannot inject empty text"), clip)
  else if preferClipboard then
    let (success, clip') := pasteText restore cenv clip text
    .ok ((success, if success then none else some "Clipboard paste failed"), clip')
  else
    match direct with
    | .ok _ => .ok ((true, none), clip)
    | .error (.textInjection _) =>
      let (success, clip') := pasteText restore cenv clip text
      if success then .ok ((true, none), clip')
      else .ok ((false, some "Both keystroke injection and clipboard fallback failed"), clip')
    | .error (.other m) => .error m

/-! ## Press-hold detector (`press_hold_detector.py`)

The detector reacts to local mouse monitors and owns asyncio tasks that
sleep for `hold_threshold` and then emit the hold callback.  Time is
modelled in discrete units (e.g. milliseconds); each created hold task is
given a fresh identifier and a firing deadline `t + threshold`.  A task
that has not been cancelled fires as soon as the loop reaches its
deadline, which the model realizes by firing every due task before
handling the next monitor event. -/

/-- The three semantic callbacks dispatched by the detector. -/
inductive DEv where
  | pressStart : DEv
  | holdStart : DEv
  | pressEnd : DEv
deriving DecidableEq, Repr

/-- Raw monitor events: a left-mouse-down (with whether
`_is_button_clicked` holds for it) or a left-mouse-up, each with its
arrival time.  `_handle_mouse_up` does not check the button. -/
inductive MEv where
  | down : Bool → Nat → MEv
  | up : Nat → MEv
deriving DecidableEq, Repr

/-- Detector state: `_is_pressed`, the set of live (created, neither fired
nor cancelled) hold tasks as `(id, deadline)` pairs, the id held by
`_hold_task` (the only task `_handle_mouse_up` can cancel), a fresh-id
counter, and the accumulated callback dispatches. -/
structure DetState where
  pressed : Bool
  tasks : List (Nat × Nat)
  stored : Option Nat
  nextId : Nat
  out : List DEv
deriving DecidableEq, Repr

/-- Initial detector state (`PressHoldDetector.__init__`). -/
def DetState.init : DetState :=
  { pressed := false, tasks := [], stored := none, nextId := 0, out := [] }

/-- Fire every live hold task whose deadline has been reached by time `t`:
each fires `on_hold_threshold` (`PressHoldDetector._fire_hold`) and is
removed from the live set. -/
def fireDue (t : Nat) (s : DetState) : DetState :=
  let due := s.tasks.filter (fun (task : Nat × Nat) => task.2 ≤ t)
  { s with
    tasks := s.tasks.filter (fun (task : Nat × Nat) => ¬ task.2 ≤ t)
    out := s.out ++ due.map (fun _ => DEv.holdStart) }

/-- Model of `PressHoldDetector._handle_mouse_down` (lines 64-76): when the event
is on the button, set `_is_pressed`, dispatch `on_press_start`, and create
a hold task firing at `t + threshold`, storing it in `_hold_task`.  There
is no guard on `_is_pressed`. -/
def handleMouseDown (threshold : Nat) (onButton : Bool) (t : Nat) (s : DetState) : DetState :=
  if onButton then
    { s with
      pressed := true
      out := s.out ++ [DEv.pressStart]
      tasks := s.tasks ++ [(s.nextId, t + threshold)]
      stored := some s.nextId
      nextId := s.nextId + 1 }
  else s

/-- Model of `PressHoldDetector._handle_mouse_up` (lines 78-90): if pressed, clear
`_is_pressed`, cancel the stored hold task when it has not yet fired
(removing it from the live set), and dispatch `on_press_end`. -/
def handleMouseUp (_t : Nat) (s : DetState) : DetState :=
  if s.pressed then
    let s := { s with pressed := false }
    let s :=
      match s.stored with
      | some id =>
        if (s.tasks.filter (fun (task : Nat × Nat) => task.1 = id)) ≠ [] then
          { s with tasks := s.tasks.filter (fun (task : Nat × Nat) => ¬ task.1 = id), stored := none }
        else s
      | none => s
    { s with out := s.out ++ [DEv.pressEnd] }
  else s

/-- One monitor event: due timers fire first (their deadlines precede the
event's arrival on the loop), then the handler runs. -/
def detStep (threshold : Nat) (s : DetState) : MEv → DetState
  | .down onButton t => handleMouseDown threshold onButton t (fireDue t s)
  | .up t => handleMouseUp t (fireDue t s)

/-- Run the detector over a time-ordered list of monitor events. -/
def detRun (threshold : Nat) (evs : List MEv) : DetState :=
  evs.foldl (detStep threshold) DetState.init

/-! ## Audio capture service (`audio_capture_service.py`)

Session ids and temporary file paths are opaque tokens modelled as `Nat`.
The service's external calls (the OS permission prompt, audio-session
configuration, and the several steps of engine/file setup that all funnel
into the same `_cleanup_on_error` + raise) are summarized by boolean
oracles.  Two ghost counters are added for specification purposes only:
`requestCount` (permission prompts actually issued) and `capturesStarted`
(successful engine starts); `openCaptures` counts captures currently
open. -/

/-- Errors raised by `AudioCaptureService` (all `AudioCaptureError` in the
source, distinguished here by origin). -/
inductive CapErr where
  | permissionDenied : CapErr
  | sessionConfig : CapErr
  | startError : CapErr
deriving DecidableEq, Repr

/-- State of `AudioCaptureService`: `_is_recording`, `_session_id`,
`_temp_file_path`, `_permission_requested`, plus the ghost counters. -/
structure AudioState where
  isRecording : Bool
  sessionId : Option Nat
  tempFilePath : Option Nat
  permissionRequested : Bool
  requestCount : Nat
  capturesStarted : Nat
  openCaptures : Nat
deriving DecidableEq, Repr

/-- Fresh service state (`AudioCaptureService.__init__`). -/
def AudioState.init : AudioState :=
  { isRecording := false, sessionId := none, tempFilePath := none,
    permissionRequested := false, requestCount := 0, capturesStarted := 0,
    openCaptures := 0 }

/-- Outcomes of the external calls in `ensure_microphone_permission`: the
user's answer to the OS prompt and whether configuring the audio session
succeeds. -/
structure MicEnv where
  micGranted : Bool
  sessionConfigOk : Bool
deriving DecidableEq, Repr

/-- Model of `AudioCaptureService.ensure_microphone_permission` (lines 75-119): if
`_permission_requested` is already set, return `True` immediately;
otherwise set the flag, issue the OS prompt, raise on denial, raise if
session configuration fails, else return `True`. -/
def ensureMicrophonePermission (env : MicEnv) (a : AudioState) :
    AudioState × Except CapErr Bool :=
  if a.permissionRequested then (a, .ok true)
  else
    let a := { a with permissionRequested := true, requestCount := a.requestCount + 1 }
    if !env.micGranted then (a, .error .permissionDenied)
    else if !env.sessionConfigOk then (a, .error .sessionConfig)
    else (a, .ok true)

/-- Outcome of the engine/file setup in `start_recording`: `startOk` is
whether every step up to `engine.isRunning()` succeeds (every failure
funnels into the same cleanup-and-raise), and `fileToken` names the fresh
temporary file. -/
structure StartEnv where
  startOk : Bool
  fileToken : Nat
deriving DecidableEq, Repr

/-- Model of `AudioCaptureService.start_recording` (lines 146-224): if a recording
is already in progress, log and return (no exception, no state change);
otherwise record the session id and attempt setup.  On success the capture
opens (temp file kept, `_is_recording` set, "started" event pushed); on
any failure `_cleanup_on_error` deletes the partial temp file and clears
`_is_recording`, and an `AudioCaptureError` is raised (the session id
assignment is not rolled back). -/
def startRecording (env : StartEnv) (sid : Nat) (a : AudioState) :
    AudioState × Except CapErr Unit :=
  if a.isRecording then (a, .ok ())
  else
    let a := { a with sessionId := some sid }
    if env.startOk then
      ({ a with tempFilePath := some env.fileToken, isRecording := true,
                capturesStarted := a.capturesStarted + 1,
                openCaptures := a.openCaptures + 1 }, .ok ())
    else
      ({ a with tempFilePath := none, isRecording := false }, .error .startError)

/-- Model of `AudioCaptureService.stop_recording` (lines 245-297): when no
recording is active or the supplied session id does not match, log a
warning and return `None` without touching any state.  On match, stop the
engine and return the file path (`_temp_file_path` itself is not cleared);
if stopping raises, `_cleanup_on_error` deletes the temp file and `None`
is returned.  `stopOk` is whether the engine teardown succeeds. -/
def stopRecording (stopOk : Bool) (sid : Nat) (a : AudioState) :
    AudioState × Option Nat :=
  if !a.isRecording || a.sessionId ≠ some sid then (a, none)
  else if stopOk then
    ({ a with isRecording := false, openCaptures := a.openCaptures - 1 }, a.tempFilePath)
  else
    ({ a with isRecording := false, tempFilePath := none,
              openCaptures := a.openCaptures - 1 }, none)

/-- Model of `AudioCaptureService.cancel_recording` (lines 299-323): no-op unless
recording; otherwise stop the engine, delete the partial file, and clear
`_is_recording` without pushing a "stopped" event. -/
def cancelRecording (a : AudioState) : AudioState :=
  if !a.isRecording then a
  else { a with tempFilePath := none, isRecording := false,
                openCaptures := a.openCaptures - 1 }

/-! ## Permissions coordinator (`permissions.py`)

`PermissionsCoordinator.ensure_ready` requests the microphone (the check
is made with `request_if_needed=True`, so the external request primitive
decides the resulting state) and then polls for accessibility trust.  The
two oracle booleans are the final outcome of those external decisions:
whether the microphone request was granted, and whether accessibility
trust was observed before the 30s timeout.  State persistence and
listener broadcast do not affect the raise/return behaviour modelled
here. -/

/-- Model of `PermissionsCoordinator.ensure_ready` (permissions.py lines 254-293):
raise `PermissionError("Microphone permission denied")` when the
microphone request is denied (before accessibility is consulted), then
raise `PermissionError("Accessibility permission denied")` when the
accessibility wait times out denied; otherwise return the (granted)
status. -/
def ensureReady (micGranted axGranted : Bool) : Except String Unit :=
  if !micGranted then .error "Microphone permission denied"
  else if !axGranted then .error "Accessibility permission denied"
  else .ok ()

/-! ## Orchestrator (`orchestrator.py`)

`TranscriptionOrchestrator` holds `_current_session_id` and
`_is_processing` and drives the audio service.  Fresh session ids
(`uuid.uuid4()` in the source) are modelled by a counter; a ghost counter
`sessionsCreated` records each time `_on_hold_started` assigns a fresh
session id. -/

/-- Orchestrator-owned fields. -/
structure OrchState where
  currentSessionId : Option Nat
  isProcessing : Bool
deriving DecidableEq, Repr

/-- Combined system state: orchestrator plus audio service, the fresh-id
counter, and the ghost count of sessions created. -/
structure SysState where
  orch : OrchState
  audio : AudioState
  nextSession : Nat
  sessionsCreated : Nat
deriving DecidableEq, Repr

/-- System state at startup: orchestrator idle, audio service fresh. -/
def SysState.init : SysState :=
  { orch := { currentSessionId := none, isProcessing := false },
    audio := AudioState.init, nextSession := 0, sessionsCreated := 0 }

/-- External outcomes consulted while handling one `hold_started` event:
whether a `PermissionsCoordinator` is configured, the coordinator's
microphone and accessibility decisions, the legacy microphone-check
outcomes (used only without a coordinator), and the capture-start
outcome. -/
structure HoldEnv where
  hasCoordinator : Bool
  micDecision : Bool
  axDecision : Bool
  micEnv : MicEnv
  startEnv : StartEnv
deriving DecidableEq, Repr

/-- Model of `TranscriptionOrchestrator._on_hold_started` (orchestrator.py lines
177-208): if `_is_processing`, log and ignore.  Otherwise assign a fresh
`_current_session_id`; with a coordinator, `ensure_ready(show_dialogs=
False)` — a `PermissionError` is caught, the icon reset, and the handler
returns without starting capture; without one, the legacy
`ensure_microphone_permission` — its exception is caught by the outer
handler, likewise without starting capture.  Then `start_recording`; its
exception is caught by the outer handler (the audio-service state changes
stand). -/
def onHoldStarted (env : HoldEnv) (s : SysState) : SysState :=
  if s.orch.isProcessing then s
  else
    let sid := s.nextSession
    let s := { s with
      orch := { s.orch with currentSessionId := some sid }
      nextSession := s.nextSession + 1
      sessionsCreated := s.sessionsCreated + 1 }
    if env.hasCoordinator then
      match ensureReady env.micDecision env.axDecision with
      | .error _ => s
      | .ok _ =>
        let (a, _) := startRecording env.startEnv sid s.audio
        { s with audio := a }
    else
      match ensureMicrophonePermission env.micEnv s.audio with
      | (a, .error _) => { s with audio := a }
      | (a, .ok _) =>
        let (a2, _) := startRecording env.startEnv sid a
        { s with audio := a2 }

/-- One injection outcome event put on `injection_events` (orchestrator.py
lines 266-301): session id, text, character count, and the error message
for failures. -/
inductive InjEvent where
  | success : Nat → String → Nat → InjEvent
  | failure : Nat → String → Nat → Option String → InjEvent
deriving DecidableEq, Repr

/-- External outcomes consulted while handling one `press_released` event:
the engine-teardown outcome for `stop_recording`, the transcription
result (`Except` for a raised `TranscriptionError`, `String` for
`result.get("text", "")`), the auto-punctuation preference read, whether
`self.text_injector` was constructed, the direct-strategy outcome and the
clipboard environment for `send_text`, and the pasteboard contents. -/
structure ReleaseEnv where
  stopOk : Bool
  transcribe : Except String String
  autoPunct : PrefRead
  injectorPresent : Bool
  direct : Except InjErr Unit
  cenv : ClipEnv
  clip : Option String
deriving Repr

/-- Model of `TranscriptionOrchestrator._on_press_released` (orchestrator.py lines
210-313): no-op without a current session.  Otherwise clear the session
id, set `_is_processing`, and stop the capture; a `None` path aborts with
no event.  On a successful stop, transcribe; a `TranscriptionError` (and
any unexpected exception) is caught with no event emitted.  On success,
apply auto-punctuation, then: non-empty text with an injector emits one
success or failure event according to `send_text(text,
prefer_clipboard=True)`; non-empty text without an injector emits one
failure event; empty text emits one failure event.  `_is_processing` is
cleared in the `finally` block.  The orchestrator constructs its
`TextInjector` with `restore_clipboard=True`. -/
def onPressReleased (env : ReleaseEnv) (s : SysState) : SysState × List InjEvent :=
  match s.orch.currentSessionId with
  | none => (s, [])
  | some sid =>
    let fin := fun (a : AudioState) (evs : List InjEvent) =>
      ({ s with orch := { currentSessionId := none, isProcessing := false },
                audio := a }, evs)
    let (a, stopRes) := stopRecording env.stopOk sid s.audio
    match stopRes with
    | none => fin a []
    | some _path =>
      match env.transcribe with
      | .error _ => fin a []
      | .ok raw =>
        let text := applyAutoPunctuation env.autoPunct raw
        if text ≠ "" then
          if env.injectorPresent then
            match sendText env.direct true env.cenv env.clip text true with
            | .ok ((true, _), _) =>
              fin a [.success sid text text.length]
            | .ok ((false, msg), _) =>
              fin a [.failure sid text text.length msg]
            | .error _ => fin a []
          else
            fin a [.failure sid text text.length (some "TextInjector not available")]
        else
          fin a [.failure sid "" 0 (some "Empty transcription result")]

/-- A press-lifecycle event with the external outcomes its handler will
observe (`press_started` is handled by a no-op and omitted). -/
inductive PEv where
  | hold : HoldEnv → PEv
  | release : ReleaseEnv → PEv

/-- One event through `TranscriptionOrchestrator._handle_press_event`. -/
def sysStep (s : SysState × List InjEvent) : PEv → SysState × List InjEvent
  | .hold env => (onHoldStarted env s.1, s.2)
  | .release env =>
    let (s', evs) := onPressReleased env s.1
    (s', s.2 ++ evs)

/-- Run the orchestrator over a list of press events from startup,
accumulating injection outcome events. -/
def sysRun (evs : List PEv) : SysState × List InjEvent :=
  evs.foldl sysStep (SysState.init, [])

/-- A `hold_started` environment in which everything succeeds: a
coordinator is configured, both permissions are granted, and the capture
engine starts (the fresh temporary file is token `7`). -/
def allGrantedEnv : HoldEnv :=
  { hasCoordinator := true, micDecision := true, axDecision := true,
    micEnv := { micGranted := true, sessionConfigOk := true },
    startEnv := { startOk := true, fileToken := 7 } }

/-- A `press_released` environment in which the capture stops cleanly but
the transcription backend raises a `TranscriptionError`. -/
def transcribeErrEnv : ReleaseEnv :=
  { stopOk := true, transcribe := .error "model failure", autoPunct := .noStore,
    injectorPresent := true, direct := .ok (),
    cenv := { writeOk := true, trusted := true, cmdVOk := true }, clip := none }

/-! ## Theorems -/

/-- C5: `stop_recording` with a session id that does not match the active
recording (or with no active recording) returns `None` and leaves the
service state — session id, open file, recording flag — unchanged. -/
theorem C5_stop_mismatch_noop (stopOk : Bool) (sid : Nat) (a : AudioState)
    (h : a.isRecording = false ∨ a.sessionId ≠ some sid) :
    stopRecording stopOk sid a = (a, none) := by
  unfold stopRecording
  rcases h with h | h
  · simp [h]
  · simp [h]

/-- Witness for C5: a stale stop for session 3 while session 5 is
recording is a no-op. -/
theorem C5_stop_mismatch_noop_witness :
    stopRecording true 3
      { isRecording := true, sessionId := some 5, tempFilePath := some 1,
        permissionRequested := true, requestCount := 1, capturesStarted := 1,
        openCaptures := 1 } =
      ({ isRecording := true, sessionId := some 5, tempFilePath := some 1,
         permissionRequested := true, requestCount := 1, capturesStarted := 1,
         openCaptures := 1 }, none) :=
  C5_stop_mismatch_noop true 3 _ (Or.inr (by decide))

/-- C10: after any first call to `ensure_microphone_permission` — whatever
its outcome, including a denial that raised — every subsequent call
returns `True` immediately, does not prompt again (the state, including
the prompt counter, is unchanged) and does not raise. -/
theorem C10_permission_request_once (env env' : MicEnv) (a : AudioState) :
    ensureMicrophonePermission env' (ensureMicrophonePermission env a).1 =
      ((ensureMicrophonePermission env a).1, .ok true) := by
  unfold ensureMicrophonePermission
  by_cases hreq : a.permissionRequested <;>
    cases hmic : env.micGranted <;>
      cases hcfg : env.sessionConfigOk <;>
        simp [hreq, hmic, hcfg]

/-- C6: for non-empty text and `prefer_clipboard=False`, a direct-strategy
`TextInjectionError` followed by a successful clipboard strategy yields
`(True, None)`; both strategies failing yields `(False, combined
message)`; empty text is rejected with `(False, error)`. -/
theorem C6_send_text_fallback (restore : Bool) (cenv : ClipEnv)
    (clip : Option String) (t m : String) (h : t ≠ "") :
    ((pasteText restore cenv clip t).1 = true →
      sendText (.error (.textInjection m)) restore cenv clip t false =
        .ok ((true, none), (pasteText restore cenv clip t).2)) ∧
    ((pasteText restore cenv clip t).1 = false →
      sendText (.error (.textInjection m)) restore cenv clip t false =
        .ok ((false, some "Both keystroke injection and clipboard fallback failed"),
          (pasteText restore cenv clip t).2)) ∧
    sendText (.error (.textInjection m)) restore cenv clip "" false =
      .ok ((false, some "Cannot inject empty text"), clip) := by
  rcases hp : pasteText restore cenv clip t with ⟨b, c⟩
  refine ⟨?_, ?_, by simp [sendText]⟩ <;> intro hb <;>
    simp_all [sendText, hp]

/-- Witness for C6: text "hi", no trust for the direct strategy, clipboard
write succeeding. -/
theorem C6_send_text_fallback_witness :
    sendText (.error (.textInjection "Accessibility permission not granted")) true
        { writeOk := true, trusted := true, cmdVOk := true } none "hi" false =
      .ok ((true, none),
        (pasteText true { writeOk := true, trusted := true, cmdVOk := true } none "hi").2) :=
  (C6_send_text_fallback true _ none "hi" _ (by decide)).1 (by decide)

/-- C7 counterexample: with `restore_clipboard` enabled and prior content
`"old"`, a paste without accessibility trust reports success yet leaves
the injected text — not the prior content — on the clipboard. -/
theorem C7_restore_counterexample :
    (pasteText true { writeOk := true, trusted := false, cmdVOk := true }
        (some "old") "new").1 = true ∧
    (pasteText true { writeOk := true, trusted := false, cmdVOk := true }
        (some "old") "new").2 ≠ some "old" := by
  decide

/-- C7 amended: with `restore_clipboard` enabled and prior content
present, the clipboard is restored on the full-success path (trusted and
Cmd+V posted); on the partial-success paths — no accessibility trust, or a
Cmd+V failure — the call still reports success but the injected text stays
on the clipboard. -/
theorem C7_restore_amended (cenv : ClipEnv) (p t : String) (h : t ≠ "") :
    (cenv.writeOk = true → cenv.trusted = true → cenv.cmdVOk = true →
      pasteText true cenv (some p) t = (true, some p)) ∧
    (cenv.writeOk = true → cenv.trusted = false →
      pasteText true cenv (some p) t = (true, some t)) ∧
    (cenv.writeOk = true → cenv.trusted = true → cenv.cmdVOk = false →
      pasteText true cenv (some p) t = (true, some t)) := by
  refine ⟨?_, ?_, ?_⟩ <;> intros <;> simp_all [pasteText]

/-- Witness for C7 amended: prior content `"old"` is restored after a
fully successful paste of `"new"`. -/
theorem C7_restore_amended_witness :
    pasteText true { writeOk := true, trusted := true, cmdVOk := true }
        (some "old") "new" = (true, some "old") :=
  (C7_restore_amended { writeOk := true, trusted := true, cmdVOk := true }
    "old" "new" (by decide)).1 rfl rfl rfl

/-- C9 counterexample: on `"hello "` (trailing space) the code trims
before punctuating and yields `"Hello."`, while the claim as stated —
capitalize the first character and append a mark exactly when the text
does not end in one — yields `"Hello ."`. -/
theorem C9_auto_punct_counterexample :
    applyAutoPunctuation (.value true) "hello " = "Hello." ∧
    autoPunctClaimed "hello " = "Hello ." ∧
    applyAutoPunctuation (.value true) "hello " ≠ autoPunctClaimed "hello " := by
  decide

/-- Capitalizing the first character of a non-empty string yields a
non-empty string. -/
theorem capFirst_ne_empty : ∀ (s : String), s ≠ "" → capFirst s ≠ "" := by
  intro s h
  obtain ⟨l⟩ := s
  cases l with
  | nil => exact absurd rfl h
  | cons c rest =>
    intro hc
    have := congrArg String.data hc
    simp [capFirst] at this

/-- With auto-punctuation effectively enabled (no store configured, or the
preference reads truthy), `_apply_auto_punctuation` computes
`autoPunctAmended`: trim, capitalize the first character of the trimmed
text, and append `'.'` exactly when the result does not end in `.`, `!`
or `?`. -/
theorem applyAutoPunctuation_enabled (pr : PrefRead)
    (hpr : pr = PrefRead.noStore ∨ pr = PrefRead.value true) (s : String) :
    applyAutoPunctuation pr s = autoPunctAmended s := by
  by_cases hs : s = ""
  · subst hs
    rcases hpr with h | h <;> subst h <;> decide
  · have case_enabled :
        (let processed := pyStrip s
         let processed := if processed ≠ "" then capFirst processed else processed
         let processed :=
           if processed ≠ "" && !endsInTerminal processed then processed ++ "."
           else processed
         processed) = autoPunctAmended s := by
      by_cases hstrip : pyStrip s = ""
      · simp [hstrip, autoPunctAmended]
      · have hcap := capFirst_ne_empty _ hstrip
        by_cases hterm : endsInTerminal (capFirst (pyStrip s))
        · simp [autoPunctAmended, hstrip, hcap, hterm]
        · simp [autoPunctAmended, hstrip, hcap, hterm]
    rcases hpr with h | h <;> subst h <;>
      simpa [applyAutoPunctuation, hs] using case_enabled

/-- C9 amended: with auto-punctuation enabled the step first trims
whitespace; an input trimming to empty yields the empty string; otherwise
the first character of the trimmed text is capitalized and `'.'` is
appended exactly when the result does not already end in `.`, `!` or `?`.
In particular `"hello"` becomes `"Hello."` with six characters, and empty
text is returned unchanged. -/
theorem C9_auto_punct_amended (pr : PrefRead) (s : String)
    (h : pr = PrefRead.noStore ∨ pr = PrefRead.value true) :
    applyAutoPunctuation pr s = autoPunctAmended s ∧
    applyAutoPunctuation (.value true) "hello" = "Hello." ∧
    (applyAutoPunctuation (.value true) "hello").length = 6 ∧
    applyAutoPunctuation pr "" = "" := by
  refine ⟨applyAutoPunctuation_enabled pr h s, by decide, by decide, ?_⟩
  simp [applyAutoPunctuation]

/-- Witness for C9 amended: the enabled step applied to `"hi"`. -/
theorem C9_auto_punct_amended_witness :
    applyAutoPunctuation (.value true) "hi" = autoPunctAmended "hi" ∧
    applyAutoPunctuation (.value true) "hello" = "Hello." ∧
    (applyAutoPunctuation (.value true) "hello").length = 6 ∧
    applyAutoPunctuation (.value true) "" = "" :=
  C9_auto_punct_amended (.value true) "hi" (Or.inr rfl)

/-- C8: a down-event on the button followed by its matching up-event less
than the hold threshold later dispatches exactly press-started then
press-end — the hold task is cancelled by the up-event before firing, so
hold-started is never emitted and no live timer remains. -/
theorem C8_fast_tap_no_hold (threshold t1 t2 : Nat) (_h1 : t1 ≤ t2)
    (h2 : t2 < t1 + threshold) :
    (detRun threshold [.down true t1, .up t2]).out = [DEv.pressStart, DEv.pressEnd] ∧
    (detRun threshold [.down true t1, .up t2]).tasks = [] := by
  have hle : ¬ (t1 + threshold ≤ t2) := by omega
  simp [detRun, detStep, DetState.init, fireDue, handleMouseDown, handleMouseUp,
    List.filter, hle]

/-- Witness for C8: a 100 ms tap under the default 350 ms threshold. -/
theorem C8_fast_tap_no_hold_witness :
    (detRun 350 [.down true 0, .up 100]).out = [DEv.pressStart, DEv.pressEnd] ∧
    (detRun 350 [.down true 0, .up 100]).tasks = [] :=
  C8_fast_tap_no_hold 350 0 100 (by decide) (by decide)

/-- C4 counterexample: a second down-event on the button at time 1, while
the press begun at time 0 is still held, is not ignored — the detector
dispatches a second press-started and creates a second live hold task. -/
theorem C4_reentrant_down_counterexample :
    ((detRun 350 [.down true 0, .down true 1]).out.count DEv.pressStart = 2) ∧
    (detRun 350 [.down true 0, .down true 1]).tasks.length = 2 := by
  decide

/-- C4 amended: a further down-event on the button while already pressed
is processed like a fresh press: it dispatches an additional
press-started callback and creates an additional hold task with deadline
`t + threshold`, which replaces the stored task — so only the newest
timer can be cancelled by the matching up-event. -/
theorem C4_reentrant_down_amended (threshold t : Nat) (s : DetState)
    (_h : s.pressed = true) :
    (handleMouseDown threshold true t s).out = s.out ++ [DEv.pressStart] ∧
    (handleMouseDown threshold true t s).tasks = s.tasks ++ [(s.nextId, t + threshold)] ∧
    (handleMouseDown threshold true t s).stored = some s.nextId := by
  simp [handleMouseDown]

/-- Witness for C4 amended: the state after a first down at time 0, given
a second down at time 1. -/
theorem C4_reentrant_down_amended_witness :
    (handleMouseDown 350 true 1 (detRun 350 [.down true 0])).out =
      (detRun 350 [.down true 0]).out ++ [DEv.pressStart] ∧
    (handleMouseDown 350 true 1 (detRun 350 [.down true 0])).tasks =
      (detRun 350 [.down true 0]).tasks ++
        [((detRun 350 [.down true 0]).nextId, 1 + 350)] ∧
    (handleMouseDown 350 true 1 (detRun 350 [.down true 0])).stored =
      some (detRun 350 [.down true 0]).nextId :=
  C4_reentrant_down_amended 350 1 (detRun 350 [.down true 0]) (by decide)

/-- C3 counterexample: with a coordinator, microphone granted and a
working engine, an accessibility denial alone prevents the capture from
starting (`ensure_ready` raises and `_on_hold_started` returns before
`start_recording`); flipping only the accessibility decision to granted
starts the capture. -/
theorem C3_ax_denied_counterexample :
    (onHoldStarted
        { hasCoordinator := true, micDecision := true, axDecision := false,
          micEnv := { micGranted := true, sessionConfigOk := true },
          startEnv := { startOk := true, fileToken := 7 } }
        SysState.init).audio.capturesStarted = 0 ∧
    (onHoldStarted allGrantedEnv SysState.init).audio.capturesStarted = 1 := by
  decide

/-- C3 amended: with a `PermissionsCoordinator` configured, a session can
only enter recording when `ensure_ready` succeeds: a denied microphone
never results in a capture-start call, and a denied accessibility
permission blocks the session in exactly the same way (the audio service
is untouched) — graceful degradation without accessibility exists only
inside `TextInjector`, not in the session gate. -/
theorem C3_permission_gate_amended (env : HoldEnv) (s : SysState)
    (hc : env.hasCoordinator = true) :
    (env.micDecision = false → (onHoldStarted env s).audio = s.audio) ∧
    (env.axDecision = false → (onHoldStarted env s).audio = s.audio) := by
  constructor <;> intro hd
  · by_cases hp : s.orch.isProcessing <;>
      simp [onHoldStarted, ensureReady, hc, hd, hp]
  · by_cases hp : s.orch.isProcessing <;> cases hm : env.micDecision <;>
      simp [onHoldStarted, ensureReady, hc, hd, hp, hm]

/-- Witness for C3 amended: a denied microphone leaves the fresh audio
service untouched. -/
theorem C3_permission_gate_amended_witness :
    (onHoldStarted
        { hasCoordinator := true, micDecision := false, axDecision := true,
          micEnv := { micGranted := true, sessionConfigOk := true },
          startEnv := { startOk := true, fileToken := 7 } }
        SysState.init).audio = SysState.init.audio :=
  (C3_permission_gate_amended _ SysState.init rfl).1 rfl

/-- The audio-service invariant tying the ghost open-capture counter to
the recording flag. -/
def audioInv (a : AudioState) : Prop :=
  a.openCaptures = (if a.isRecording then 1 else 0)

/-- Lemma: `ensure_microphone_permission` touches only the permission
bookkeeping, so it preserves the capture invariant. -/
theorem ensureMicrophonePermission_inv (env : MicEnv) (a : AudioState)
    (h : audioInv a) : audioInv (ensureMicrophonePermission env a).1 := by
  unfold ensureMicrophonePermission audioInv at *
  by_cases hreq : a.permissionRequested <;>
    cases hmic : env.micGranted <;>
      cases hcfg : env.sessionConfigOk <;>
        simp_all

/-- Lemma: `start_recording` preserves the capture invariant: it opens a capture
only from the non-recording state (where the counter is zero), and its
rollback path leaves the counter untouched with the flag cleared. -/
theorem startRecording_inv (env : StartEnv) (sid : Nat) (a : AudioState)
    (h : audioInv a) : audioInv (startRecording env sid a).1 := by
  unfold startRecording audioInv at *
  by_cases hrec : a.isRecording <;> cases hok : env.startOk <;> simp_all

/-- Lemma: `stop_recording` preserves the capture invariant. -/
theorem stopRecording_inv (stopOk : Bool) (sid : Nat) (a : AudioState)
    (h : audioInv a) : audioInv (stopRecording stopOk sid a).1 := by
  unfold stopRecording audioInv at *
  by_cases hrec : a.isRecording <;>
    by_cases hsid : a.sessionId = some sid <;>
      cases stopOk <;> simp_all

/-- Lemma: `_on_hold_started` preserves the capture invariant. -/
theorem onHoldStarted_inv (env : HoldEnv) (s : SysState)
    (h : audioInv s.audio) : audioInv (onHoldStarted env s).audio := by
  unfold onHoldStarted
  by_cases hp : s.orch.isProcessing
  · simpa [hp]
  · by_cases hco : env.hasCoordinator
    · rcases her : ensureReady env.micDecision env.axDecision with e | u
      · simpa [hp, hco, her]
      · have := startRecording_inv env.startEnv s.nextSession s.audio h
        rcases hst : startRecording env.startEnv s.nextSession s.audio with ⟨a2, r⟩
        rw [hst] at this
        simpa [hp, hco, her, hst]
    · rcases hem : ensureMicrophonePermission env.micEnv s.audio with ⟨a1, r1⟩
      have h1 := ensureMicrophonePermission_inv env.micEnv s.audio h
      rw [hem] at h1
      rcases r1 with e | b
      · simpa [hp, hco, hem]
      · have h2 := startRecording_inv env.startEnv s.nextSession a1 h1
        rcases hst : startRecording env.startEnv s.nextSession a1 with ⟨a2, r⟩
        rw [hst] at h2
        simpa [hp, hco, hem, hst]

/-- Lemma: `_on_press_released` preserves the capture invariant (every branch
carries the audio state produced by `stop_recording`). -/
theorem onPressReleased_inv (env : ReleaseEnv) (s : SysState)
    (h : audioInv s.audio) : audioInv (onPressReleased env s).1.audio := by
  unfold onPressReleased
  rcases hsid : s.orch.currentSessionId with _ | sid
  · simpa [hsid]
  · have h1 := stopRecording_inv env.stopOk sid s.audio h
    rcases hst : stopRecording env.stopOk sid s.audio with ⟨a, r⟩
    rw [hst] at h1
    rcases r with _ | p
    · simpa [hsid, hst]
    · rcases htr : env.transcribe with e | raw
      · simpa [hsid, hst, htr]
      · by_cases hne : applyAutoPunctuation env.autoPunct raw ≠ ""
        · by_cases hinj : env.injectorPresent
          · rcases hsend : sendText env.direct true env.cenv env.clip
                (applyAutoPunctuation env.autoPunct raw) true with e | ⟨⟨b, msg⟩, c⟩
            · simpa [hsid, hst, htr, hne, hinj, hsend]
            · cases b <;> simpa [hsid, hst, htr, hne, hinj, hsend]
          · simpa [hsid, hst, htr, hne, hinj]
        · simpa [hsid, hst, htr, hne]

/-- Every prefix of a press-event run preserves the capture invariant. -/
theorem sysRun_inv (evs : List PEv) : audioInv (sysRun evs).1.audio := by
  suffices h : ∀ (acc : SysState × List InjEvent), audioInv acc.1.audio →
      audioInv (evs.foldl sysStep acc).1.audio by
    exact h (SysState.init, []) (by simp [SysState.init, AudioState.init, audioInv])
  induction evs with
  | nil => intro acc h; exact h
  | cons ev rest ih =>
    intro acc h
    refine ih _ ?_
    rcases ev with env | env
    · exact onHoldStarted_inv env acc.1 h
    · exact onPressReleased_inv env acc.1 h

/-- C2 counterexample: with everything granted, a second `hold_started`
processed while the first session is still recording is not ignored — a
second session id is created (overwriting the first) — although
`start_recording` does refuse a second capture. -/
theorem C2_second_hold_counterexample :
    (sysRun [.hold allGrantedEnv, .hold allGrantedEnv]).1.sessionsCreated = 2 ∧
    (sysRun [.hold allGrantedEnv, .hold allGrantedEnv]).1.orch.currentSessionId = some 1 ∧
    (sysRun [.hold allGrantedEnv, .hold allGrantedEnv]).1.audio.capturesStarted = 1 := by
  decide

/-- C2 amended: a `hold_started` arriving while `press_released`
processing is in flight (`_is_processing`) is ignored outright; a
`hold_started` while recording is not ignored — it overwrites the current
session id with a fresh one — but `start_recording` rejects while a
capture is active, so over every sequence of press events at most one
capture is ever open. -/
theorem C2_single_capture_amended (evs : List PEv) (env : HoldEnv) (s : SysState)
    (h : s.orch.isProcessing = true) :
    (sysRun evs).1.audio.openCaptures ≤ 1 ∧ onHoldStarted env s = s := by
  constructor
  · have hinv := sysRun_inv evs
    unfold audioInv at hinv
    rw [hinv]
    split <;> omega
  · simp [onHoldStarted, h]

/-- Witness for C2 amended: the two-hold trace stays within one open
capture, and a hold arriving mid-processing leaves the state untouched. -/
theorem C2_single_capture_amended_witness :
    (sysRun [.hold allGrantedEnv, .hold allGrantedEnv]).1.audio.openCaptures ≤ 1 ∧
    onHoldStarted allGrantedEnv
        { orch := { currentSessionId := none, isProcessing := true },
          audio := AudioState.init, nextSession := 3, sessionsCreated := 3 } =
      { orch := { currentSessionId := none, isProcessing := true },
        audio := AudioState.init, nextSession := 3, sessionsCreated := 3 } :=
  C2_single_capture_amended [.hold allGrantedEnv, .hold allGrantedEnv]
    allGrantedEnv _ rfl

/-- C1 counterexample: a session whose capture stops cleanly (the stop in
this very trace returns the artifact, so the session reaches
Transcribing) but whose transcription raises emits no injection outcome
event at all — the claim requires exactly one on that terminal path. -/
theorem C1_outcome_counterexample :
    (sysRun [.hold allGrantedEnv, .release transcribeErrEnv]).2 = [] ∧
    (stopRecording transcribeErrEnv.stopOk 0
        (sysRun [.hold allGrantedEnv]).1.audio).2 = some 7 := by
  decide

/-- C1 amended: a session that reaches Transcribing (its `stop_recording`
returned an artifact) emits exactly one `InjectionOutcome` whenever the
transcription backend returns a result — covering the successful
injection, failed injection, missing-injector and empty-text terminal
paths — but on a transcription-backend error no outcome event is emitted;
the handler only logs and resets to idle. -/
theorem C1_outcome_amended (env : ReleaseEnv) (s : SysState) (sid p : Nat)
    (hsid : s.orch.currentSessionId = some sid)
    (hstop : (stopRecording env.stopOk sid s.audio).2 = some p) :
    (∀ raw, env.transcribe = .ok raw → ((onPressReleased env s).2).length = 1) ∧
    (∀ e, env.transcribe = .error e → (onPressReleased env s).2 = []) := by
  rcases hst : stopRecording env.stopOk sid s.audio with ⟨a, r⟩
  rw [hst] at hstop
  simp only at hstop
  subst hstop
  constructor
  · intro raw htr
    by_cases hne : applyAutoPunctuation env.autoPunct raw = ""
    · simp [onPressReleased, hsid, hst, htr, hne]
    · by_cases hinj : env.injectorPresent
      · rcases hp : pasteText true env.cenv env.clip
            (applyAutoPunctuation env.autoPunct raw) with ⟨b, c⟩
        cases b <;>
          simp [onPressReleased, hsid, hst, htr, hne, hinj, sendText, hp]
      · simp [onPressReleased, hsid, hst, htr, hne, hinj]
  · intro e htr
    simp [onPressReleased, hsid, hst, htr]

/-- Witness for C1 amended: the state after one all-granted hold, with a
transcription returning "hello", emits exactly one outcome event. -/
theorem C1_outcome_amended_witness :
    (((onPressReleased
        { stopOk := true, transcribe := .ok "hello", autoPunct := .noStore,
          injectorPresent := true, direct := .ok (),
          cenv := { writeOk := true, trusted := true, cmdVOk := true }, clip := none }
        (sysRun [.hold allGrantedEnv]).1).2).length = 1) :=
  (C1_outcome_amended _ (sysRun [.hold allGrantedEnv]).1 0 7 (by decide)
    (by decide)).1 "hello" rfl

end WhisperInput
